import Mathlib

/-!
Verification of the NYC taxi weekly fact-table pipeline (src/master.py).

The pipeline is embedded shallowly:
* record rows are Lean structures whose fields carry the CSV column names
  (the `Trip_type` column name carries a trailing space in the source CSV
  header; the Lean field drops it);
* monetary and distance columns are rationals; the nullable columns the
  claims exercise (the fare column and the two timestamp columns) are
  `Option`-valued, `none` standing for SQL null;
* the Spark column functions used by the source (`to_date`, `date_format`,
  `dayofweek`, `weekofyear`, `avg`, `sum`, `filter`, `dropDuplicates`,
  `groupBy`) are given their documented default (non-ANSI) semantics:
  null in / null out for the date functions, null skipping for `avg` and
  `sum`, three-valued comparison in `filter` (a null comparison does not
  retain the row), and `avg` of an empty or all-null column is null.
-/

/-- A parsed timestamp value: calendar date plus time of day. -/
structure Timestamp where
  year : Nat
  month : Nat
  day : Nat
  hour : Nat
  minute : Nat
  second : Nat
deriving DecidableEq

/-- A calendar date, as produced by Spark's `to_date`. -/
structure Date where
  year : Nat
  month : Nat
  day : Nat
deriving DecidableEq

/-- Gregorian leap-year test. -/
def isLeapYear (y : Nat) : Bool :=
  (y % 4 == 0 && y % 100 != 0) || y % 400 == 0

/-- Number of days in month `m` of year `y` (months numbered 1..12). -/
def daysInMonth (y m : Nat) : Nat :=
  if m = 2 then (if isLeapYear y then 29 else 28)
  else if m = 4 ∨ m = 6 ∨ m = 9 ∨ m = 11 then 30
  else 31

/-- Number of days of year `y` that precede the first day of month `m`. -/
def monthOffset (y m : Nat) : Nat :=
  let leap : Nat := if isLeapYear y then 1 else 0
  match m with
  | 1 => 0
  | 2 => 31
  | 3 => 59 + leap
  | 4 => 90 + leap
  | 5 => 120 + leap
  | 6 => 151 + leap
  | 7 => 181 + leap
  | 8 => 212 + leap
  | 9 => 243 + leap
  | 10 => 273 + leap
  | 11 => 304 + leap
  | 12 => 334 + leap
  | _ => 0

/-- Ordinal day of the year (1 for January 1). -/
def dayOfYear (d : Date) : Nat := monthOffset d.year d.month + d.day

/-- Rata Die day number: 0001-01-01 is day 1 (a Monday). -/
def rataDie (d : Date) : Nat :=
  365 * (d.year - 1) + (d.year - 1) / 4 - (d.year - 1) / 100 + (d.year - 1) / 400
    + dayOfYear d

/-- Spark's `dayofweek`: 1 = Sunday, 2 = Monday, ..., 7 = Saturday. -/
def dayofweek (d : Date) : Nat := rataDie d % 7 + 1

/-- ISO-8601 weekday numbering, 1 = Monday, ..., 7 = Sunday. Modelled from
the spec: the spec's "ISO week semantics" fixes the ISO-8601 numbering of
weekdays, against which the pipeline's weekday column is checked. -/
def isoDayOfWeek (d : Date) : Nat := (rataDie d + 6) % 7 + 1

/-- Number of ISO weeks in year `y`: 53 when January 1 falls on a Thursday,
or on a Wednesday of a leap year; otherwise 52. -/
def weeksInYear (y : Nat) : Nat :=
  if isoDayOfWeek ⟨y, 1, 1⟩ = 4 ∨ (isLeapYear y ∧ isoDayOfWeek ⟨y, 1, 1⟩ = 3)
  then 53 else 52

/-- Spark's `weekofyear`: the ISO-8601 week number of the date, computed by
the standard ordinal-day formula with the year-boundary adjustments. -/
def weekofyear (d : Date) : Nat :=
  if (dayOfYear d + 10 - isoDayOfWeek d) / 7 = 0 then
    weeksInYear (d.year - 1)
  else if (dayOfYear d + 10 - isoDayOfWeek d) / 7 = 53 ∧ weeksInYear d.year = 52 then
    1
  else
    (dayOfYear d + 10 - isoDayOfWeek d) / 7

/-- A date is valid when its month is 1..12 and its day fits the month. -/
def Date.Valid (d : Date) : Prop :=
  1 ≤ d.month ∧ d.month ≤ 12 ∧ 1 ≤ d.day ∧ d.day ≤ daysInMonth d.year d.month

theorem dayOfYear_pos (d : Date) (h : d.Valid) : 1 ≤ dayOfYear d := by
  obtain ⟨h1, h2, h3, h4⟩ := h
  unfold dayOfYear
  omega

theorem dayOfYear_le_366 (d : Date) (h : d.Valid) : dayOfYear d ≤ 366 := by
  obtain ⟨h1, h2, h3, h4⟩ := h
  rcases d with ⟨y, m, day⟩
  simp only at h1 h2 h3 h4
  unfold dayOfYear monthOffset
  simp only
  unfold daysInMonth at h4
  interval_cases m <;> simp_all <;> first
    | omega
    | (split_ifs at * <;> omega)

theorem isoDayOfWeek_bounds (d : Date) : 1 ≤ isoDayOfWeek d ∧ isoDayOfWeek d ≤ 7 := by
  unfold isoDayOfWeek
  omega

theorem dayofweek_bounds (d : Date) : 1 ≤ dayofweek d ∧ dayofweek d ≤ 7 := by
  unfold dayofweek
  omega

theorem weeksInYear_cases (y : Nat) : weeksInYear y = 52 ∨ weeksInYear y = 53 := by
  unfold weeksInYear
  split <;> simp

theorem weekofyear_bounds (d : Date) (h : d.Valid) :
    1 ≤ weekofyear d ∧ weekofyear d ≤ 53 := by
  have h1 := dayOfYear_pos d h
  have h2 := dayOfYear_le_366 d h
  have h3 := isoDayOfWeek_bounds d
  have h4 := weeksInYear_cases (d.year - 1)
  unfold weekofyear
  split_ifs with hz ho
  · omega
  · omega
  · omega

/-- One raw input row minus the optional `Ehail_fee` column: exactly the
columns of the raw row that survive the drop at source line 47. The two
timestamp columns are `Option`-valued: `none` models a SQL null, which is
what Spark's permissive CSV reading and its date functions produce for a
value that fails to parse. The fare column is `Option`-valued for the same
reason; the remaining numeric columns are modelled non-null. -/
structure RawTripRecordNoFee where
  VendorID : Nat
  lpep_pickup_datetime : Option Timestamp
  Lpep_dropoff_datetime : Option Timestamp
  Trip_type : Nat
  Payment_type : Nat
  Trip_distance : ℚ
  Fare_amount : Option ℚ
  Extra : ℚ
  MTA_tax : ℚ
  Tip_amount : ℚ
  Total_amount : ℚ
  improvement_surcharge : ℚ
deriving DecidableEq

/-- One raw input row as read from the CSV (the columns the pipeline uses). -/
structure RawTripRecord extends RawTripRecordNoFee where
  Ehail_fee : Option ℚ
deriving DecidableEq

/-- The column drop at source line 47: `df.drop('Ehail_fee')`. -/
def dropEhailFee (r : RawTripRecord) : RawTripRecordNoFee :=
  r.toRawTripRecordNoFee

/-- A cleaned row (output of `clean_data`): the fee-less raw columns with
the eight derived date/time/week/weekday columns added and the two raw
timestamp columns dropped (source lines 50-62). -/
structure CleanedTripRecord where
  VendorID : Nat
  Trip_type : Nat
  Payment_type : Nat
  Trip_distance : ℚ
  Fare_amount : Option ℚ
  Extra : ℚ
  MTA_tax : ℚ
  Tip_amount : ℚ
  Total_amount : ℚ
  improvement_surcharge : ℚ
  Pickup_date : Option Date
  Dropoff_date : Option Date
  Pickup_time : Option (Nat × Nat × Nat)
  Dropoff_time : Option (Nat × Nat × Nat)
  Pickup_day_of_week : Option Nat
  Pickup_week : Option Nat
  Dropoff_day_of_week : Option Nat
  Dropoff_week : Option Nat
deriving DecidableEq

/-- Spark's `to_date` on a timestamp column value: null in, null out. An
unparsable timestamp is already null here because Spark's default
(non-ANSI) parsing yields null, not an error, for invalid input. -/
def to_date : Option Timestamp → Option Date
  | none => none
  | some t => some ⟨t.year, t.month, t.day⟩

/-- Spark's `date_format(ts, "HH:mm:ss")`: the time-of-day components of
the timestamp, null in, null out. -/
def date_format_HHmmss : Option Timestamp → Option (Nat × Nat × Nat)
  | none => none
  | some t => some (t.hour, t.minute, t.second)

/-- Spark's `dayofweek` lifted to a nullable timestamp column. -/
def dayofweekCol (t : Option Timestamp) : Option Nat :=
  (to_date t).map dayofweek

/-- Spark's `weekofyear` lifted to a nullable timestamp column. -/
def weekofyearCol (t : Option Timestamp) : Option Nat :=
  (to_date t).map weekofyear

/-- The `withColumn` chain of `clean_data` (source lines 50-62): derive the
four date/time columns and the four week/weekday columns from the two
timestamp columns, then drop the timestamp columns. -/
def enrich (r : RawTripRecordNoFee) : CleanedTripRecord where
  VendorID := r.VendorID
  Trip_type := r.Trip_type
  Payment_type := r.Payment_type
  Trip_distance := r.Trip_distance
  Fare_amount := r.Fare_amount
  Extra := r.Extra
  MTA_tax := r.MTA_tax
  Tip_amount := r.Tip_amount
  Total_amount := r.Total_amount
  improvement_surcharge := r.improvement_surcharge
  Pickup_date := to_date r.lpep_pickup_datetime
  Dropoff_date := to_date r.Lpep_dropoff_datetime
  Pickup_time := date_format_HHmmss r.lpep_pickup_datetime
  Dropoff_time := date_format_HHmmss r.Lpep_dropoff_datetime
  Pickup_day_of_week := dayofweekCol r.lpep_pickup_datetime
  Pickup_week := weekofyearCol r.lpep_pickup_datetime
  Dropoff_day_of_week := dayofweekCol r.Lpep_dropoff_datetime
  Dropoff_week := weekofyearCol r.Lpep_dropoff_datetime

/-- Keep-first-occurrence deduplication, threading the set of values seen
so far. -/
def dedupFirst {α : Type} [DecidableEq α] (seen : List α) : List α → List α
  | [] => []
  | a :: l => if a ∈ seen then dedupFirst seen l else a :: dedupFirst (a :: seen) l

/-- Spark's `dropDuplicates`: exactly one representative of each
duplicate class survives (which physical row survives is unspecified in
Spark; the surviving rows are equal as values, so keep-first is a faithful
model of the output record set). -/
def dropDuplicates {α : Type} [DecidableEq α] (l : List α) : List α :=
  dedupFirst [] l

/-- Source `clean_data` (lines 41-68): drop the `Ehail_fee` column, drop
duplicate rows, then derive the date/time/week/weekday columns and drop
the raw timestamp columns. -/
def clean_data (df : List RawTripRecord) : List CleanedTripRecord :=
  (dropDuplicates (df.map dropEhailFee)).map enrich

/-- The fare filter at source line 76: `df.filter(df.Fare_amount > 0)`.
Spark comparison is three-valued: a null fare compares to null, and the
filter retains only rows where the predicate is true, so null-fare rows
are dropped exactly like non-positive fares. -/
def fareFilter (df : List CleanedTripRecord) : List CleanedTripRecord :=
  df.filter fun r =>
    match r.Fare_amount with
    | some f => decide (0 < f)
    | none => false

/-- A cleaned row with the `tip_fraction` column added (source lines
79-82). -/
structure TipTripRecord extends CleanedTripRecord where
  tip_fraction : ℚ
deriving DecidableEq

/-- The `withColumn` at source lines 79-82:
`tip_fraction = Tip_amount / Fare_amount`. Post-filter the fare is always
a positive non-null value; the `none` branch (where Spark would produce a
null fraction) is unreachable on the pipeline's inputs. -/
def addTipFraction (df : List CleanedTripRecord) : List TipTripRecord :=
  df.map fun r =>
    { toCleanedTripRecord := r
      tip_fraction :=
        match r.Fare_amount with
        | some f => r.Tip_amount / f
        | none => 0 }

/-- Spark's `avg` as a scalar aggregation over a non-null column: null
(`none`) on the empty set, the arithmetic mean otherwise. This is the
value `agg(avg(..)).collect()[0][0]` hands back to the driver. -/
def avgQ (xs : List ℚ) : Option ℚ :=
  if xs.isEmpty then none else some (xs.sum / xs.length)

/-- A flagged row: tip-fraction row plus the generous-customer flag
(source lines 84-89). -/
structure FlaggedTripRecord extends TipTripRecord where
  Generous_customer_flg : Bool
deriving DecidableEq

/-- Source lines 84-89: compute the mean tip over the current (filtered)
record set once, then flag every record whose tip strictly exceeds it.
When the set is empty the mean is null and Spark's `tip > null` is null;
a null flag is not `true`, so it is modelled as `false` (no record exists
in that case anyway). -/
def addGenerousFlag (df : List TipTripRecord) : List FlaggedTripRecord :=
  df.map fun r =>
    { toTipTripRecord := r
      Generous_customer_flg :=
        match avgQ (df.map (·.Tip_amount)) with
        | some m => decide (m < r.Tip_amount)
        | none => false }

/-- The Flagger stage of `create_fact_table` (source lines 75-89): fare
filter, tip fraction, generous flag. -/
def flaggedRecords (df : List CleanedTripRecord) : List FlaggedTripRecord :=
  addGenerousFlag (addTipFraction (fareFilter df))

/-- The grouping key of the `groupBy` at source lines 92-93:
(VendorID, Trip_type, Payment_type, Pickup_week). -/
structure GroupKey where
  VendorID : Nat
  Trip_type : Nat
  Payment_type : Nat
  Pickup_week : Option Nat
deriving DecidableEq

/-- The grouping key of a flagged record. -/
def keyOf (r : FlaggedTripRecord) : GroupKey :=
  ⟨r.VendorID, r.Trip_type, r.Payment_type, r.Pickup_week⟩

/-- Sum of the non-null values of a nullable column (Spark `sum` skips
nulls). -/
def sumOpt (l : List (Option ℚ)) : ℚ :=
  (l.filterMap id).sum

/-- Count of the non-null values of a nullable column. -/
def countSome (l : List (Option ℚ)) : Nat :=
  (l.filterMap id).length

/-- One row of the weekly fact table before the lucky flag is added: the
group key columns and the eleven aggregates of source lines 94-106. -/
structure WeeklyFactRow where
  VendorID : Nat
  Trip_type : Nat
  Payment_type : Nat
  Pickup_week : Option Nat
  Total_trip_distance : ℚ
  Avg_trip_distance : ℚ
  Total_fare_amount : ℚ
  Avg_fare_amount : ℚ
  Total_total_amount : ℚ
  Total_extra : ℚ
  Avg_extra : ℚ
  Total_mta_tax : ℚ
  Avg_tip_amount : ℚ
  Avg_improvement_surcharge : ℚ
  Generous_customer_count : Nat
deriving DecidableEq

/-- The members of group `k`: the records of `df` whose key is `k`. -/
def groupMembers (df : List FlaggedTripRecord) (k : GroupKey) : List FlaggedTripRecord :=
  df.filter fun r => keyOf r = k

/-- The aggregate row of one group (the `agg` list at source lines
94-106). `avg` over a non-null column divides by the number of rows of
the group; over the nullable fare column it divides by the number of
non-null fares (all fares are non-null post-filter, so the two agree on
the pipeline's inputs). The boolean generous flag is cast to 0/1 and
summed, i.e. the flagged records are counted. -/
def aggRow (k : GroupKey) (members : List FlaggedTripRecord) : WeeklyFactRow where
  VendorID := k.VendorID
  Trip_type := k.Trip_type
  Payment_type := k.Payment_type
  Pickup_week := k.Pickup_week
  Total_trip_distance := (members.map (·.Trip_distance)).sum
  Avg_trip_distance := (members.map (·.Trip_distance)).sum / members.length
  Total_fare_amount := sumOpt (members.map (·.Fare_amount))
  Avg_fare_amount :=
    sumOpt (members.map (·.Fare_amount)) / countSome (members.map (·.Fare_amount))
  Total_total_amount := (members.map (·.Total_amount)).sum
  Total_extra := (members.map (·.Extra)).sum
  Avg_extra := (members.map (·.Extra)).sum / members.length
  Total_mta_tax := (members.map (·.MTA_tax)).sum
  Avg_tip_amount := (members.map (·.Tip_amount)).sum / members.length
  Avg_improvement_surcharge := (members.map (·.improvement_surcharge)).sum / members.length
  Generous_customer_count := members.countP (·.Generous_customer_flg)

/-- The `groupBy(..).agg(..)` at source lines 92-106: one aggregate row
per distinct key present in the input. -/
def groupRows (df : List FlaggedTripRecord) : List WeeklyFactRow :=
  (dropDuplicates (df.map keyOf)).map fun k => aggRow k (groupMembers df k)

/-- The key columns of a fact row. -/
def rowKey (row : WeeklyFactRow) : GroupKey :=
  ⟨row.VendorID, row.Trip_type, row.Payment_type, row.Pickup_week⟩

/-- A weekly fact row with the lucky flag added (source lines 108-116). -/
structure LuckyWeeklyFactRow extends WeeklyFactRow where
  Lucky_flg : Bool
deriving DecidableEq

/-- Source lines 108-116: compute the mean generous count over the
aggregated rows, then flag every group whose count strictly exceeds it.
As with the generous flag, the empty-table case gives a null mean and a
null (hence not-true) flag, modelled as `false`. -/
def addLuckyFlag (fact : List WeeklyFactRow) : List LuckyWeeklyFactRow :=
  fact.map fun row =>
    { toWeeklyFactRow := row
      Lucky_flg :=
        match avgQ (fact.map fun t => (t.Generous_customer_count : ℚ)) with
        | some m => decide (m < (row.Generous_customer_count : ℚ))
        | none => false }

/-- Source `create_fact_table` (lines 70-122): Flagger then Aggregator
then the lucky-flag pass. -/
def create_fact_table (df : List CleanedTripRecord) : List LuckyWeeklyFactRow :=
  addLuckyFlag (groupRows (flaggedRecords df))

/-- The mean tip over the post-filter set, recomputed independently the
way the spec words it: the sum of the filtered records' tips divided by
the number of filtered records. -/
def specMeanTip (df : List CleanedTripRecord) : ℚ :=
  ((fareFilter df).map (·.Tip_amount)).sum / (fareFilter df).length

/-- The mean generous count across the output groups, recomputed
independently the way the spec words it. -/
def specMeanGenerous (rows : List WeeklyFactRow) : ℚ :=
  (rows.map fun row => (row.Generous_customer_count : ℚ)).sum / rows.length

theorem mem_dedupFirst {α : Type} [DecidableEq α] (seen l : List α) (x : α) :
    x ∈ dedupFirst seen l ↔ x ∈ l ∧ x ∉ seen := by
  induction l generalizing seen with
  | nil => simp [dedupFirst]
  | cons a l ih =>
    unfold dedupFirst
    by_cases ha : a ∈ seen
    · rw [if_pos ha, ih]
      simp only [List.mem_cons]
      constructor
      · rintro ⟨hl, hs⟩
        exact ⟨Or.inr hl, hs⟩
      · rintro ⟨rfl | hl, hs⟩
        · exact absurd ha hs
        · exact ⟨hl, hs⟩
    · rw [if_neg ha]
      simp only [List.mem_cons, ih, List.mem_cons]
      by_cases hx : x = a
      · subst hx
        simp [ha]
      · simp only [hx, false_or]
        try tauto

theorem mem_dropDuplicates {α : Type} [DecidableEq α] (l : List α) (x : α) :
    x ∈ dropDuplicates l ↔ x ∈ l := by
  rw [dropDuplicates, mem_dedupFirst]
  simp

theorem nodup_dedupFirst {α : Type} [DecidableEq α] (seen l : List α) :
    (dedupFirst seen l).Nodup := by
  induction l generalizing seen with
  | nil => simp [dedupFirst]
  | cons a l ih =>
    unfold dedupFirst
    split
    · exact ih seen
    · rw [List.nodup_cons]
      refine ⟨fun hmem => ?_, ih (a :: seen)⟩
      rcases (mem_dedupFirst _ _ _).1 hmem with ⟨_, hns⟩
      exact hns (List.mem_cons_self a seen)

theorem dedupFirst_all_seen {α : Type} [DecidableEq α] (seen D : List α)
    (h : ∀ x ∈ D, x ∈ seen) : dedupFirst seen D = [] := by
  induction D generalizing seen with
  | nil => rfl
  | cons a D ih =>
    unfold dedupFirst
    rw [if_pos (h a (List.mem_cons_self a D))]
    exact ih seen fun x hx => h x (List.mem_cons_of_mem a hx)

theorem dedupFirst_append_absorb {α : Type} [DecidableEq α] (l D : List α) :
    ∀ seen, (∀ x ∈ D, x ∈ l ∨ x ∈ seen) →
      dedupFirst seen (l ++ D) = dedupFirst seen l := by
  induction l with
  | nil =>
    intro seen h
    rw [List.nil_append, show dedupFirst seen ([] : List α) = [] from rfl]
    exact dedupFirst_all_seen seen D fun x hx => (h x hx).resolve_left (by simp)
  | cons a l ih =>
    intro seen h
    rw [List.cons_append]
    unfold dedupFirst
    by_cases ha : a ∈ seen
    · rw [if_pos ha, if_pos ha]
      refine ih seen fun x hx => ?_
      rcases h x hx with hxl | hxs
      · rcases List.mem_cons.1 hxl with rfl | h2
        · exact Or.inr ha
        · exact Or.inl h2
      · exact Or.inr hxs
    · rw [if_neg ha, if_neg ha]
      congr 1
      refine ih (a :: seen) fun x hx => ?_
      rcases h x hx with hxl | hxs
      · rcases List.mem_cons.1 hxl with rfl | h2
        · exact Or.inr (List.mem_cons_self _ _)
        · exact Or.inl h2
      · exact Or.inr (List.mem_cons_of_mem a hxs)

theorem sumOpt_all_some (l : List (Option ℚ)) (h : ∀ x ∈ l, x ≠ none) :
    sumOpt l = (l.map (fun x => x.getD 0)).sum ∧ countSome l = l.length := by
  induction l with
  | nil => simp [sumOpt, countSome]
  | cons a l ih =>
    have ha := h a (List.mem_cons_self a l)
    obtain ⟨v, rfl⟩ := Option.ne_none_iff_exists'.1 ha
    obtain ⟨ihs, ihc⟩ := ih fun x hx => h x (List.mem_cons_of_mem _ hx)
    have e1 : sumOpt (some v :: l) = v + sumOpt l := rfl
    have e2 : countSome (some v :: l) = countSome l + 1 := rfl
    constructor
    · rw [e1, ihs, List.map_cons, List.sum_cons]
      rfl
    · rw [e2, ihc, List.length_cons]

theorem avgQ_of_ne_nil (xs : List ℚ) (h : xs ≠ []) :
    avgQ xs = some (xs.sum / xs.length) := by
  unfold avgQ
  rw [if_neg]
  simpa using h

theorem tips_addTipFraction (l : List CleanedTripRecord) :
    (addTipFraction l).map (·.Tip_amount) = l.map (·.Tip_amount) := by
  unfold addTipFraction
  rw [List.map_map]
  rfl

/-- C1: for every input batch, a flagged record's generous flag is true if
and only if that record's tip strictly exceeds the mean tip computed over
exactly the post-filter (fare > 0) set; equivalently, the number of
generous-flagged records equals the number of post-filter records whose
tip strictly exceeds that mean. -/
theorem generous_flag_iff_tip_gt_mean (df : List CleanedTripRecord)
    (r : FlaggedTripRecord) (h : r ∈ flaggedRecords df) :
    (r.Generous_customer_flg = true ↔ specMeanTip df < r.Tip_amount) ∧
    (flaggedRecords df).countP (·.Generous_customer_flg)
      = (fareFilter df).countP fun c => decide (specMeanTip df < c.Tip_amount) := by
  have hne : fareFilter df ≠ [] := by
    intro hnil
    unfold flaggedRecords at h
    rw [hnil] at h
    simp [addTipFraction, addGenerousFlag] at h
  have havg : avgQ ((addTipFraction (fareFilter df)).map (·.Tip_amount))
      = some (specMeanTip df) := by
    rw [tips_addTipFraction, avgQ_of_ne_nil]
    · unfold specMeanTip
      rw [List.length_map]
    · simpa using hne
  constructor
  · unfold flaggedRecords addGenerousFlag at h
    rw [List.mem_map] at h
    obtain ⟨t, ht, rfl⟩ := h
    show (match avgQ ((addTipFraction (fareFilter df)).map (·.Tip_amount)) with
      | some m => decide (m < t.Tip_amount)
      | none => false) = true ↔ specMeanTip df < t.Tip_amount
    rw [havg]
    exact decide_eq_true_iff
  · unfold flaggedRecords addGenerousFlag
    rw [List.countP_map]
    simp only [Function.comp, havg]
    unfold addTipFraction
    rw [List.countP_map]
    rfl

/-- A concrete cleaned record used to instantiate hypothesis-bearing
theorems: positive fare, tip 2. -/
def cBase : CleanedTripRecord where
  VendorID := 1
  Trip_type := 1
  Payment_type := 1
  Trip_distance := 3
  Fare_amount := some 10
  Extra := 0
  MTA_tax := 0
  Tip_amount := 2
  Total_amount := 12
  improvement_surcharge := 0
  Pickup_date := none
  Dropoff_date := none
  Pickup_time := none
  Dropoff_time := none
  Pickup_day_of_week := none
  Pickup_week := some 1
  Dropoff_day_of_week := none
  Dropoff_week := none

/-- A default flagged record (all fields zero or null), used only as the
fallback of `List.headD`. -/
def flaggedDefault : FlaggedTripRecord where
  VendorID := 0
  Trip_type := 0
  Payment_type := 0
  Trip_distance := 0
  Fare_amount := none
  Extra := 0
  MTA_tax := 0
  Tip_amount := 0
  Total_amount := 0
  improvement_surcharge := 0
  Pickup_date := none
  Dropoff_date := none
  Pickup_time := none
  Dropoff_time := none
  Pickup_day_of_week := none
  Pickup_week := none
  Dropoff_day_of_week := none
  Dropoff_week := none
  tip_fraction := 0
  Generous_customer_flg := false

theorem headD_mem {α : Type} (l : List α) (d : α) (h : l ≠ []) : l.headD d ∈ l := by
  cases l with
  | nil => exact absurd rfl h
  | cons a t => exact List.mem_cons_self _ _

theorem flaggedRecords_length (df : List CleanedTripRecord) :
    (flaggedRecords df).length = (fareFilter df).length := by
  unfold flaggedRecords addGenerousFlag addTipFraction
  simp [List.length_map]

theorem fareFilter_cBase : fareFilter [cBase] = [cBase] := by
  norm_num [fareFilter, cBase, List.filter_cons]

theorem flaggedRecords_cBase_ne_nil : flaggedRecords [cBase] ≠ [] := by
  have h : (flaggedRecords [cBase]).length = 1 := by
    rw [flaggedRecords_length, fareFilter_cBase]
    rfl
  intro hnil
  rw [hnil] at h
  simp at h

/-- C1 witness: the count identity evaluated on a concrete one-record
batch. -/
theorem generous_flag_iff_tip_gt_mean_witness :
    (flaggedRecords [cBase]).countP (·.Generous_customer_flg)
      = (fareFilter [cBase]).countP fun c => decide (specMeanTip [cBase] < c.Tip_amount) :=
  (generous_flag_iff_tip_gt_mean [cBase]
    ((flaggedRecords [cBase]).headD flaggedDefault)
    (headD_mem _ _ flaggedRecords_cBase_ne_nil)).2

/-- A weekly fact row with generous count `n` and all other aggregates
zero; three of these realise the spec's lucky-flag example. -/
def gRow (n : Nat) : WeeklyFactRow where
  VendorID := n
  Trip_type := 1
  Payment_type := 1
  Pickup_week := some 1
  Total_trip_distance := 0
  Avg_trip_distance := 0
  Total_fare_amount := 0
  Avg_fare_amount := 0
  Total_total_amount := 0
  Total_extra := 0
  Avg_extra := 0
  Total_mta_tax := 0
  Avg_tip_amount := 0
  Avg_improvement_surcharge := 0
  Generous_customer_count := n

/-- C2: after all groups are computed, a group's lucky flag is true if and
only if its generous count strictly exceeds the mean generous count taken
across all resulting groups (a pass over the aggregated output); and for
three groups with generous counts 2, 4, 9 (mean 5) exactly the count-9
group is lucky. -/
theorem lucky_flag_iff_count_gt_group_mean (df : List CleanedTripRecord)
    (row : LuckyWeeklyFactRow) (h : row ∈ create_fact_table df) :
    (row.Lucky_flg = true ↔
      specMeanGenerous (groupRows (flaggedRecords df)) < (row.Generous_customer_count : ℚ)) ∧
    (addLuckyFlag [gRow 2, gRow 4, gRow 9]).map (·.Lucky_flg) = [false, false, true] := by
  have hne : groupRows (flaggedRecords df) ≠ [] := by
    intro hnil
    unfold create_fact_table at h
    rw [hnil] at h
    simp [addLuckyFlag] at h
  have havg : avgQ ((groupRows (flaggedRecords df)).map
      fun t => (t.Generous_customer_count : ℚ))
      = some (specMeanGenerous (groupRows (flaggedRecords df))) := by
    rw [avgQ_of_ne_nil]
    · unfold specMeanGenerous
      rw [List.length_map]
    · simpa using hne
  constructor
  · unfold create_fact_table addLuckyFlag at h
    rw [List.mem_map] at h
    obtain ⟨t, ht, rfl⟩ := h
    show (match avgQ ((groupRows (flaggedRecords df)).map
        fun t => (t.Generous_customer_count : ℚ)) with
      | some m => decide (m < (t.Generous_customer_count : ℚ))
      | none => false) = true ↔
      specMeanGenerous (groupRows (flaggedRecords df)) < (t.Generous_customer_count : ℚ)
    rw [havg]
    exact decide_eq_true_iff
  · norm_num [addLuckyFlag, avgQ, gRow, List.map_cons]

/-- A default lucky fact row, used only as the fallback of `List.headD`. -/
def luckyDefault : LuckyWeeklyFactRow where
  VendorID := 0
  Trip_type := 0
  Payment_type := 0
  Pickup_week := none
  Total_trip_distance := 0
  Avg_trip_distance := 0
  Total_fare_amount := 0
  Avg_fare_amount := 0
  Total_total_amount := 0
  Total_extra := 0
  Avg_extra := 0
  Total_mta_tax := 0
  Avg_tip_amount := 0
  Avg_improvement_surcharge := 0
  Generous_customer_count := 0
  Lucky_flg := false

theorem create_fact_table_cBase_ne_nil : create_fact_table [cBase] ≠ [] := by
  have h : (create_fact_table [cBase]).length = 1 := by
    unfold create_fact_table addLuckyFlag groupRows
    rw [List.length_map, List.length_map]
    unfold flaggedRecords addGenerousFlag addTipFraction
    rw [fareFilter_cBase]
    rfl
  intro hnil
  rw [hnil] at h
  simp at h

/-- C2 witness: the lucky-flag example evaluated, obtained by applying the
theorem to a concrete one-record batch. -/
theorem lucky_flag_iff_count_gt_group_mean_witness :
    (addLuckyFlag [gRow 2, gRow 4, gRow 9]).map (·.Lucky_flg) = [false, false, true] :=
  (lucky_flag_iff_count_gt_group_mean [cBase]
    ((create_fact_table [cBase]).headD luckyDefault)
    (headD_mem _ _ create_fact_table_cBase_ne_nil)).2

/-- A cleaned record with a negative fare: the fare filter removes it, so
the batch `[cNeg]` has an empty post-filter set. -/
def cNeg : CleanedTripRecord :=
  { cBase with Fare_amount := some (-5) }

theorem fareFilter_cNeg : fareFilter [cNeg] = [] := by
  norm_num [fareFilter, cNeg, cBase, List.filter_cons]

/-- C3: on a batch whose post-filter set is empty the pipeline does not
fail at all: the mean over the empty set is null rather than a
divide-by-zero error, and `create_fact_table` silently returns an empty
fact table — there is no "no eligible records" condition in the code. -/
theorem empty_filter_silent_empty_output :
    fareFilter [cNeg] = [] ∧ avgQ ([] : List ℚ) = none ∧
    create_fact_table [cNeg] = [] ∧ create_fact_table [] = [] := by
  refine ⟨fareFilter_cNeg, rfl, ?_, rfl⟩
  show addLuckyFlag (groupRows (addGenerousFlag (addTipFraction (fareFilter [cNeg])))) = []
  rw [fareFilter_cNeg]
  rfl

/-- C6: every record of the Flagger's output carries a positive non-null
fare (fare ≤ 0 and null-fare records are silently excluded), and its
tip-fraction column equals its tip divided by that fare — the division is
well-defined because the filter precedes it. -/
theorem flagged_fare_pos_tip_fraction (df : List CleanedTripRecord)
    (r : FlaggedTripRecord) (h : r ∈ flaggedRecords df) :
    ∃ f : ℚ, r.Fare_amount = some f ∧ 0 < f ∧ r.tip_fraction = r.Tip_amount / f := by
  unfold flaggedRecords addGenerousFlag at h
  rw [List.mem_map] at h
  obtain ⟨t, ht, rfl⟩ := h
  unfold addTipFraction at ht
  rw [List.mem_map] at ht
  obtain ⟨c, hc, rfl⟩ := ht
  unfold fareFilter at hc
  rw [List.mem_filter] at hc
  obtain ⟨hcm, hcp⟩ := hc
  rcases hfa : c.Fare_amount with _ | f
  · rw [hfa] at hcp
    exact absurd hcp (by simp)
  · rw [hfa] at hcp
    exact ⟨f, rfl, by simpa using hcp, rfl⟩

/-- C6 witness: the flagged record of a concrete batch has a non-null
fare. -/
theorem flagged_fare_pos_tip_fraction_witness :
    ((flaggedRecords [cBase]).headD flaggedDefault).Fare_amount ≠ none := by
  obtain ⟨f, hf, hpos, htf⟩ :=
    flagged_fare_pos_tip_fraction [cBase] _ (headD_mem _ _ flaggedRecords_cBase_ne_nil)
  rw [hf]
  simp

/-- A cleaned record whose fare is null. -/
def cNull : CleanedTripRecord :=
  { cBase with Fare_amount := none }

/-- C10: a null-fare record is excluded by the fare filter exactly as a
non-positive fare is: it never appears in the post-filter set, and
removing the null-fare records beforehand changes neither the filtered
set nor the final fact table, so a null-fare record reaches no division,
no mean and no group aggregate. -/
theorem null_fare_excluded (df : List CleanedTripRecord) :
    (∀ r ∈ df, r.Fare_amount = none → r ∉ fareFilter df) ∧
    (∀ r ∈ fareFilter df, r.Fare_amount ≠ none) ∧
    fareFilter (df.filter fun r => r.Fare_amount.isSome) = fareFilter df ∧
    create_fact_table (df.filter fun r => r.Fare_amount.isSome) = create_fact_table df := by
  have key : ∀ r : CleanedTripRecord, r ∈ fareFilter df → r.Fare_amount ≠ none := by
    intro r hr hnone
    unfold fareFilter at hr
    rw [List.mem_filter] at hr
    have hp := hr.2
    rw [hnone] at hp
    exact absurd hp (by simp)
  have hff : fareFilter (df.filter fun r => r.Fare_amount.isSome) = fareFilter df := by
    unfold fareFilter
    rw [List.filter_filter]
    apply List.filter_congr
    intro r hr
    rcases hfa : r.Fare_amount with _ | f <;> simp [hfa]
  refine ⟨?_, key, hff, ?_⟩
  · intro r hr hnone hmem
    exact key r hmem hnone
  · unfold create_fact_table flaggedRecords
    rw [hff]

/-- C10 witness: dropping the null-fare records of a concrete batch does
not change the fact table. -/
theorem null_fare_excluded_witness :
    create_fact_table ([cNull].filter fun r => r.Fare_amount.isSome)
      = create_fact_table [cNull] :=
  (null_fare_excluded [cNull]).2.2.2

theorem aggRow_congr (k : GroupKey) (m m' : List FlaggedTripRecord) (h : m.Perm m') :
    aggRow k m = aggRow k m' := by
  have hlen : m.length = m'.length := h.length_eq
  have hsum : ∀ f : FlaggedTripRecord → ℚ, (m.map f).sum = (m'.map f).sum :=
    fun f => (h.map f).sum_eq
  have hfm : ((m.map (·.Fare_amount)).filterMap id).Perm
      ((m'.map (·.Fare_amount)).filterMap id) :=
    (h.map (·.Fare_amount)).filterMap id
  have hcnt : m.countP (·.Generous_customer_flg) = m'.countP (·.Generous_customer_flg) :=
    h.countP_eq _
  unfold aggRow sumOpt countSome
  simp only [WeeklyFactRow.mk.injEq]
  refine ⟨trivial, trivial, trivial, trivial, hsum _, ?_, hfm.sum_eq, ?_, hsum _, hsum _,
    ?_, hsum _, ?_, ?_, hcnt⟩
  · rw [hsum _, hlen]
  · rw [hfm.sum_eq, hfm.length_eq]
  · rw [hsum _, hlen]
  · rw [hsum _, hlen]
  · rw [hsum _, hlen]

theorem mem_groupRows (df : List FlaggedTripRecord) (row : WeeklyFactRow) :
    row ∈ groupRows df ↔
      ∃ k, k ∈ df.map keyOf ∧ aggRow k (groupMembers df k) = row := by
  unfold groupRows
  rw [List.mem_map]
  constructor
  · rintro ⟨k, hk, hrow⟩
    exact ⟨k, (mem_dropDuplicates _ _).1 hk, hrow⟩
  · rintro ⟨k, hk, hrow⟩
    exact ⟨k, (mem_dropDuplicates _ _).2 hk, hrow⟩

theorem groupRows_keys (df : List FlaggedTripRecord) :
    (groupRows df).map rowKey = dropDuplicates (df.map keyOf) := by
  unfold groupRows
  rw [List.map_map]
  exact List.map_id _

/-- C4: the aggregated output has exactly one row per distinct grouping
key of the flagged input — the output key list is duplicate-free and a
key appears in it exactly when some input record carries it — and the
grouped result does not depend on the order of the input records: a
permutation of the input yields the same set of output rows. -/
theorem grouping_complete_order_insensitive (df df' : List FlaggedTripRecord)
    (hperm : df.Perm df') :
    ((groupRows df).map rowKey).Nodup ∧
    (∀ k, k ∈ (groupRows df).map rowKey ↔ ∃ r ∈ df, keyOf r = k) ∧
    (∀ row, row ∈ groupRows df ↔ row ∈ groupRows df') := by
  refine ⟨?_, ?_, ?_⟩
  · rw [groupRows_keys]
    exact nodup_dedupFirst _ _
  · intro k
    rw [groupRows_keys, mem_dropDuplicates, List.mem_map]
  · intro row
    rw [mem_groupRows, mem_groupRows]
    constructor
    · rintro ⟨k, hk, hrow⟩
      refine ⟨k, (hperm.map keyOf).mem_iff.1 hk, ?_⟩
      rw [← hrow]
      exact (aggRow_congr k _ _ (hperm.filter _)).symm
    · rintro ⟨k, hk, hrow⟩
      refine ⟨k, (hperm.map keyOf).mem_iff.2 hk, ?_⟩
      rw [← hrow]
      exact aggRow_congr k _ _ (hperm.filter _)

/-- A concrete flagged record with vendor 1. -/
def fA : FlaggedTripRecord :=
  { flaggedDefault with VendorID := 1, Fare_amount := some 10 }

/-- A concrete flagged record with vendor 2. -/
def fB : FlaggedTripRecord :=
  { flaggedDefault with VendorID := 2, Fare_amount := some 20 }

/-- C4 witness: the key list of the grouped output of a concrete
two-record flagged input is duplicate-free, applied at a transposed pair
of inputs. -/
theorem grouping_complete_order_insensitive_witness :
    ((groupRows [fA, fB]).map rowKey).Nodup :=
  (grouping_complete_order_insensitive [fA, fB] [fB, fA] (List.Perm.swap fB fA [])).1

theorem flagged_fare_ne_none (df : List CleanedTripRecord) (r : FlaggedTripRecord)
    (h : r ∈ flaggedRecords df) : r.Fare_amount ≠ none := by
  unfold flaggedRecords addGenerousFlag at h
  rw [List.mem_map] at h
  obtain ⟨t, ht, rfl⟩ := h
  unfold addTipFraction at ht
  rw [List.mem_map] at ht
  obtain ⟨c, hc, rfl⟩ := ht
  unfold fareFilter at hc
  rw [List.mem_filter] at hc
  have hcp := hc.2
  intro hnone
  have hn : c.Fare_amount = none := hnone
  rw [hn] at hcp
  exact absurd hcp (by simp)

/-- First record of the spec's aggregation example: distance 3, fare 10. -/
def fEx1 : FlaggedTripRecord :=
  { flaggedDefault with
      VendorID := 1
      Trip_type := 1
      Payment_type := 1
      Pickup_week := some 1
      Trip_distance := 3
      Fare_amount := some 10 }

/-- Second record of the spec's aggregation example: distance 5, fare 20,
same group key as the first. -/
def fEx2 : FlaggedTripRecord :=
  { flaggedDefault with
      VendorID := 1
      Trip_type := 1
      Payment_type := 1
      Pickup_week := some 1
      Trip_distance := 5
      Fare_amount := some 20 }

/-- C5: each group's fact row carries the sums and arithmetic means the
spec lists — sum and mean of distance, sum and mean of fare, sum of total
amount, sum and mean of extra, sum of tax, mean of tip, mean of
improvement surcharge, and the count of generous-flagged records — and on
two same-key records with distances 3, 5 and fares 10, 20 the row reads
total distance 8, mean distance 4, total fare 30, mean fare 15. -/
theorem group_metrics (input : List CleanedTripRecord) (k : GroupKey)
    (m : List FlaggedTripRecord) (hk : k ∈ (flaggedRecords input).map keyOf)
    (hm : m = groupMembers (flaggedRecords input) k) :
    aggRow k m ∈ groupRows (flaggedRecords input) ∧
    (aggRow k m).Total_trip_distance = (m.map (·.Trip_distance)).sum ∧
    (aggRow k m).Avg_trip_distance = (m.map (·.Trip_distance)).sum / m.length ∧
    (aggRow k m).Total_fare_amount = (m.map fun r => r.Fare_amount.getD 0).sum ∧
    (aggRow k m).Avg_fare_amount = (m.map fun r => r.Fare_amount.getD 0).sum / m.length ∧
    (aggRow k m).Total_total_amount = (m.map (·.Total_amount)).sum ∧
    (aggRow k m).Total_extra = (m.map (·.Extra)).sum ∧
    (aggRow k m).Avg_extra = (m.map (·.Extra)).sum / m.length ∧
    (aggRow k m).Total_mta_tax = (m.map (·.MTA_tax)).sum ∧
    (aggRow k m).Avg_tip_amount = (m.map (·.Tip_amount)).sum / m.length ∧
    (aggRow k m).Avg_improvement_surcharge
      = (m.map (·.improvement_surcharge)).sum / m.length ∧
    (aggRow k m).Generous_customer_count = m.countP (·.Generous_customer_flg) ∧
    (groupRows [fEx1, fEx2]).map
      (fun row => (row.Total_trip_distance, row.Avg_trip_distance,
        row.Total_fare_amount, row.Avg_fare_amount)) = [(8, 4, 30, 15)] := by
  have hfares : ∀ x ∈ m.map (·.Fare_amount), x ≠ none := by
    intro x hx
    rw [List.mem_map] at hx
    obtain ⟨r, hr, rfl⟩ := hx
    apply flagged_fare_ne_none input r
    rw [hm] at hr
    unfold groupMembers at hr
    exact List.mem_of_mem_filter hr
  obtain ⟨hs, hc2⟩ := sumOpt_all_some (m.map (·.Fare_amount)) hfares
  refine ⟨?_, rfl, rfl, ?_, ?_, rfl, rfl, rfl, rfl, rfl, rfl, rfl, ?_⟩
  · rw [hm]
    exact (mem_groupRows _ _).2 ⟨k, hk, rfl⟩
  · show sumOpt (m.map (·.Fare_amount)) = _
    rw [hs, List.map_map]
    rfl
  · show sumOpt (m.map (·.Fare_amount)) / (countSome (m.map (·.Fare_amount)) : ℚ) = _
    rw [hs, hc2, List.map_map, List.length_map]
    rfl
  · norm_num [groupRows, groupMembers, dropDuplicates, dedupFirst, keyOf, aggRow,
      sumOpt, countSome, fEx1, fEx2, flaggedDefault, List.filter_cons,
      List.filterMap_cons, List.map_cons]

/-- C5 witness: the aggregation example, obtained by applying the theorem
at a concrete batch and its one group key. -/
theorem group_metrics_witness :
    (groupRows [fEx1, fEx2]).map
      (fun row => (row.Total_trip_distance, row.Avg_trip_distance,
        row.Total_fare_amount, row.Avg_fare_amount)) = [(8, 4, 30, 15)] :=
  (group_metrics [cBase] (keyOf ((flaggedRecords [cBase]).headD flaggedDefault)) _
    (List.mem_map.2 ⟨_, headD_mem _ _ flaggedRecords_cBase_ne_nil, rfl⟩)
    rfl).2.2.2.2.2.2.2.2.2.2.2.2

/-- A concrete raw input record with valid timestamps. -/
def rawA : RawTripRecord where
  VendorID := 1
  lpep_pickup_datetime := some ⟨2015, 1, 5, 8, 30, 0⟩
  Lpep_dropoff_datetime := some ⟨2015, 1, 5, 8, 45, 0⟩
  Trip_type := 1
  Payment_type := 1
  Trip_distance := 3
  Fare_amount := some 10
  Extra := 0
  MTA_tax := 0
  Tip_amount := 2
  Total_amount := 12
  improvement_surcharge := 0
  Ehail_fee := none

/-- The same trip as `rawA` up to the optional fee column: a duplicate of
`rawA` once the fee column is dropped. -/
def rawA2 : RawTripRecord :=
  { rawA with Ehail_fee := some 1 }

/-- C9: appending duplicated rows to a batch leaves the Cleaner's output
unchanged; duplicates are compared by full-row equality after the fee
column is dropped, and exactly one representative of each duplicate class
survives (the retained pre-enrichment row list is duplicate-free). -/
theorem dedup_idempotent_append (S D : List RawTripRecord)
    (hdup : ∀ r ∈ D, ∃ s ∈ S, dropEhailFee r = dropEhailFee s) :
    clean_data (S ++ D) = clean_data S ∧
    (dropDuplicates ((S ++ D).map dropEhailFee)).Nodup := by
  have habs : dropDuplicates ((S ++ D).map dropEhailFee)
      = dropDuplicates (S.map dropEhailFee) := by
    rw [List.map_append]
    unfold dropDuplicates
    apply dedupFirst_append_absorb
    intro x hx
    rw [List.mem_map] at hx
    obtain ⟨r, hr, rfl⟩ := hx
    obtain ⟨s, hs, heq⟩ := hdup r hr
    refine Or.inl ?_
    rw [heq]
    exact List.mem_map_of_mem _ hs
  constructor
  · unfold clean_data
    rw [habs]
  · exact nodup_dedupFirst _ _

/-- C9 witness: a concrete batch with one appended fee-differing duplicate
cleans to the same output as the batch alone. -/
theorem dedup_idempotent_append_witness :
    clean_data ([rawA] ++ [rawA2]) = clean_data [rawA] :=
  (dedup_idempotent_append [rawA] [rawA2] (by
    intro r hr
    rw [List.mem_singleton] at hr
    subst hr
    exact ⟨rawA, List.mem_singleton.2 rfl, rfl⟩)).1

/-- A raw record whose pickup timestamp failed to parse (Spark's
permissive CSV read and non-ANSI `to_date` both give null). -/
def rawBad : RawTripRecord :=
  { rawA with lpep_pickup_datetime := none }

/-- C7 counterexample: a batch containing a record whose pickup timestamp
is unparsable is not fatal. The record flows through `clean_data` (it is
neither skipped nor does it abort the run), its derived pickup date, time
and week columns are silently null, and `create_fact_table` still
produces a fact row from it — the claimed strict-abort behaviour does not
occur. -/
theorem unparsable_timestamp_not_fatal :
    rawBad.lpep_pickup_datetime = none ∧
    clean_data [rawBad] = [enrich (dropEhailFee rawBad)] ∧
    (enrich (dropEhailFee rawBad)).Pickup_date = none ∧
    (enrich (dropEhailFee rawBad)).Pickup_time = none ∧
    (enrich (dropEhailFee rawBad)).Pickup_week = none ∧
    (enrich (dropEhailFee rawBad)).Pickup_day_of_week = none ∧
    (create_fact_table (clean_data [rawBad])).length = 1 := by
  have hff : fareFilter [enrich (dropEhailFee rawBad)] = [enrich (dropEhailFee rawBad)] := by
    norm_num [fareFilter, enrich, dropEhailFee, rawBad, rawA, List.filter_cons]
  refine ⟨rfl, rfl, rfl, rfl, rfl, rfl, ?_⟩
  show (create_fact_table [enrich (dropEhailFee rawBad)]).length = 1
  unfold create_fact_table addLuckyFlag groupRows
  rw [List.length_map, List.length_map]
  unfold flaggedRecords addGenerousFlag addTipFraction
  rw [hff]
  rfl

/-- C7 amended: a parse failure is not fatal and does not drop the
record: every input record's enriched row reaches the Cleaner's output
(up to deduplication), and when the pickup timestamp is null/unparsable
its four derived pickup columns are null. -/
theorem unparsable_timestamp_yields_null_fields (df : List RawTripRecord)
    (r : RawTripRecord) (h : r ∈ df) :
    enrich (dropEhailFee r) ∈ clean_data df ∧
    (r.lpep_pickup_datetime = none →
      (enrich (dropEhailFee r)).Pickup_date = none ∧
      (enrich (dropEhailFee r)).Pickup_time = none ∧
      (enrich (dropEhailFee r)).Pickup_day_of_week = none ∧
      (enrich (dropEhailFee r)).Pickup_week = none) := by
  constructor
  · unfold clean_data
    apply List.mem_map_of_mem
    rw [mem_dropDuplicates]
    exact List.mem_map_of_mem _ h
  · intro hn
    refine ⟨?_, ?_, ?_, ?_⟩ <;>
      simp [enrich, dropEhailFee, to_date, date_format_HHmmss, dayofweekCol,
        weekofyearCol, hn]

/-- C7 amended witness: the concrete bad-timestamp record survives
cleaning. -/
theorem unparsable_timestamp_yields_null_fields_witness :
    enrich (dropEhailFee rawBad) ∈ clean_data [rawBad] :=
  (unparsable_timestamp_yields_null_fields [rawBad] rawBad (List.mem_singleton.2 rfl)).1

/-- A raw record picked up on Monday 2015-01-05. -/
def rawMon : RawTripRecord :=
  { rawA with lpep_pickup_datetime := some ⟨2015, 1, 5, 10, 0, 0⟩ }

/-- C8 counterexample: the derived day-of-week column does not follow the
ISO-8601 weekday numbering. For the Monday 2015-01-05 the cleaned record
stores day-of-week 2 (Sunday = 1 numbering), while the ISO-8601 weekday
of that date is 1. -/
theorem pickup_weekday_not_iso :
    clean_data [rawMon] = [enrich (dropEhailFee rawMon)] ∧
    (enrich (dropEhailFee rawMon)).Pickup_day_of_week = some 2 ∧
    isoDayOfWeek ⟨2015, 1, 5⟩ = 1 ∧
    (enrich (dropEhailFee rawMon)).Pickup_day_of_week
      ≠ some (isoDayOfWeek ⟨2015, 1, 5⟩) := by
  refine ⟨rfl, by decide, by decide, by decide⟩

/-- C8 amended: for every record whose pickup timestamp parses to a valid
date, the derived pickup week number lies in [1, 53] and the derived
pickup day-of-week lies in the fixed 7-value domain 1..7 — but with
Sunday = 1 (the SQL numbering), not the ISO-8601 weekday numbering; the
week number does follow ISO-8601. Both columns are the deterministic
functions `weekofyear` and `dayofweek` of the original timestamp, and the
dropoff columns are derived by exactly the same two functions. -/
theorem derived_week_weekday_bounds (t : Timestamp) (r : RawTripRecordNoFee)
    (hval : (⟨t.year, t.month, t.day⟩ : Date).Valid)
    (hr : r.lpep_pickup_datetime = some t) :
    (enrich r).Pickup_week = some (weekofyear ⟨t.year, t.month, t.day⟩) ∧
    (enrich r).Pickup_day_of_week = some (dayofweek ⟨t.year, t.month, t.day⟩) ∧
    1 ≤ weekofyear ⟨t.year, t.month, t.day⟩ ∧
    weekofyear ⟨t.year, t.month, t.day⟩ ≤ 53 ∧
    1 ≤ dayofweek ⟨t.year, t.month, t.day⟩ ∧
    dayofweek ⟨t.year, t.month, t.day⟩ ≤ 7 ∧
    (enrich r).Dropoff_week = (to_date r.Lpep_dropoff_datetime).map weekofyear ∧
    (enrich r).Dropoff_day_of_week = (to_date r.Lpep_dropoff_datetime).map dayofweek := by
  obtain ⟨hw1, hw2⟩ := weekofyear_bounds (⟨t.year, t.month, t.day⟩ : Date) hval
  obtain ⟨hd1, hd2⟩ := dayofweek_bounds (⟨t.year, t.month, t.day⟩ : Date)
  refine ⟨?_, ?_, hw1, hw2, hd1, hd2, rfl, rfl⟩
  · show weekofyearCol r.lpep_pickup_datetime = _
    rw [hr]
    rfl
  · show dayofweekCol r.lpep_pickup_datetime = _
    rw [hr]
    rfl

/-- C8 amended witness: the bound theorem applied at the concrete Monday
record. -/
theorem derived_week_weekday_bounds_witness :
    (enrich (dropEhailFee rawMon)).Pickup_week = some (weekofyear ⟨2015, 1, 5⟩) :=
  (derived_week_weekday_bounds ⟨2015, 1, 5, 10, 0, 0⟩ (dropEhailFee rawMon)
    (by unfold Date.Valid; decide) rfl).1
